import Mathlib

/-!
Shallow embedding of the two example applications in this repository:

* `src/dependencies/main.py` — a dependency-injection route `GET /user`
  whose handler `view_user_profile` receives the record produced by the
  provider function `get_user`;
* `src/middleware/main.py` — a logging/timing middleware `logger`
  installed around the `GET /` handler `home`.

Python dictionaries with string keys and string values are modelled as
association lists `List (String × String)`; a failing dictionary lookup
(Python `KeyError`) and a downstream exception are modelled with
`Except String`.  The two clock reads `time.time()` (wall clock, taken at
the start) and `time.perf_counter()` (monotonic counter, taken at the end)
are passed to `logger` as rational parameters `start_time` and `end_time`;
`print` output is collected into a list of strings, in emission order.
-/

/-- An HTTP request, reduced to the two fields the code reads
(`request.method` and `request.url`; the url string includes any query
string). -/
structure Request where
  method : String
  url : String
deriving DecidableEq

/-- An HTTP response: a status code and a JSON-object body modelled as an
association list. -/
structure Response where
  status : Nat
  body : List (String × String)
deriving DecidableEq

/-- Python `d[k]` lookup on a string-keyed dict, as an `Option`:
`some v` when the key is present, `none` for a `KeyError`. -/
def dictGet (d : List (String × String)) (k : String) : Option String :=
  (d.find? (fun p => p.1 == k)).map Prod.snd

/-- The framework turns a handler's returned dict into a `200` response
with that dict as JSON body. -/
def renderOk (body : List (String × String)) : Response :=
  { status := 200, body := body }

/-! ## src/dependencies/main.py -/

/-- `def get_user(): return {"user": "Francis Peter"}` — the provider
function. -/
def get_user : List (String × String) :=
  [("user", "Francis Peter")]

/-- `def view_user_profile(user: dict = Depends(get_user)): return
{"message": f"Hello {user['user']}!"}` — the handler body, applied to the
injected dict.  A missing `"user"` key is the `KeyError` branch. -/
def view_user_profile (user : List (String × String)) :
    Except String (List (String × String)) :=
  match dictGet user "user" with
  | some v => Except.ok [("message", "Hello " ++ v ++ "!")]
  | none => Except.error "KeyError: user"

/-- The routed `GET /user` operation: the framework resolves the
dependency by calling `get_user`, runs the handler on the result, and
renders the returned dict as a `200` response. -/
def user_route : Except String Response :=
  (view_user_profile get_user).map renderOk

/-! ## src/middleware/main.py -/

/-- `async def home(): return {"message": "This endpoint has a
middleware"}` — the handler's returned dict. -/
def home : List (String × String) :=
  [("message", "This endpoint has a middleware")]

/-- The routed `GET /` operation: `home` takes no parameters, so the
framework invokes it ignoring the request, and renders the returned dict
as a `200` response. -/
def home_route (_req : Request) : Response :=
  renderOk home

/-- `process_time = start_time - end_time` in `logger` (the start
wall-clock read minus the end monotonic read). -/
def process_time (start_time end_time : ℚ) : ℚ :=
  start_time - end_time

/-- The first `print` of `logger`:
`f"Request Received: {request.method} {request.url}"`. -/
def requestLine (request : Request) : String :=
  "Request Received: " ++ request.method ++ " " ++ request.url

/-- The second `print` of `logger`: `f"Duration: {process_time}"`. -/
def durationLine (start_time end_time : ℚ) : String :=
  "Duration: " ++ toString (process_time start_time end_time)

/-- `async def logger(request, call_next)` — the middleware.  It prints
the request line, reads `start_time = time.time()`, awaits
`call_next(request)`, reads `end_time = time.perf_counter()`, prints the
duration line, and returns the downstream response.  The result pairs the
emitted log lines (in order) with the outcome; when `call_next` raises,
the exception propagates (there is no try/except), so only the first log
line has been emitted. -/
def logger (request : Request) (call_next : Request → Except String Response)
    (start_time end_time : ℚ) : List String × Except String Response :=
  match call_next request with
  | Except.ok response =>
      ([requestLine request, durationLine start_time end_time],
       Except.ok response)
  | Except.error e =>
      ([requestLine request], Except.error e)

/-! ## Sanity checks on concrete inputs -/

example : user_route =
    Except.ok { status := 200, body := [("message", "Hello Francis Peter!")] } := by
  rfl

example : home_route { method := "GET", url := "http://x/" } =
    { status := 200, body := [("message", "This endpoint has a middleware")] } := by
  rfl

example :
    logger { method := "GET", url := "http://x/" }
      (fun r => Except.ok (home_route r)) 5 2 =
    (["Request Received: GET http://x/", "Duration: 3"],
     Except.ok { status := 200,
                 body := [("message", "This endpoint has a middleware")] }) := by
  have h : process_time 5 2 = 3 := by norm_num [process_time]
  simp only [logger, durationLine, requestLine, h]
  rfl

/-! ## Claims -/

/-- C1: for every request, `GET /user` returns status 200 with body
`{"message": "Hello Francis Peter!"}`, the name interpolated from the
record returned by the provider function `get_user`. -/
theorem C1_user_route_ok :
    user_route =
      Except.ok { status := 200, body := [("message", "Hello Francis Peter!")] } ∧
    view_user_profile get_user =
      Except.ok [("message", "Hello Francis Peter!")] :=
  ⟨rfl, rfl⟩

/-- C2 counterexample: with a realistic wall-clock start reading
(about 1.76e9 seconds since the epoch) and monotonic end reading
(12345 seconds since boot), the computed `process_time` equals the
wall-clock-minus-monotonic difference itself, not its negative, and is
positive, not negative. -/
theorem C2_counterexample :
    process_time 1760000000 12345 = 1759987655 ∧
    ¬ process_time 1760000000 12345 = -((1760000000 : ℚ) - 12345) ∧
    ¬ process_time 1760000000 12345 < 0 := by
  refine ⟨by norm_num [process_time], by norm_num [process_time],
    by norm_num [process_time]⟩

/-- C2 amended: for every request whose downstream call completes, the
logged duration value equals `start_time - end_time`, i.e. the wall-clock
start reading minus the monotonic end reading (the operands are subtracted
in the wrong order and drawn from different time sources); the logged
value is negative exactly when the wall-clock start reading is below the
monotonic end reading. -/
theorem C2_amended_duration_is_start_minus_end (request : Request)
    (call_next : Request → Except String Response)
    (start_time end_time : ℚ) (response : Response)
    (h : call_next request = Except.ok response) :
    (logger request call_next start_time end_time).1 =
      [requestLine request,
       "Duration: " ++ toString (start_time - end_time)] ∧
    process_time start_time end_time = start_time - end_time ∧
    (process_time start_time end_time < 0 ↔ start_time < end_time) := by
  refine ⟨?_, rfl, ?_⟩
  · simp [logger, h, durationLine, process_time]
  · exact sub_neg

/-- C2 amended, witness at concrete inputs. -/
theorem C2_amended_witness :
    (logger { method := "GET", url := "http://w2/" }
        (fun _ => Except.ok { status := 200, body := [] }) 9 4).1 =
      [requestLine { method := "GET", url := "http://w2/" },
       "Duration: " ++ toString ((9 : ℚ) - 4)] ∧
    process_time 9 4 = (9 : ℚ) - 4 ∧
    (process_time 9 4 < 0 ↔ (9 : ℚ) < 4) :=
  C2_amended_duration_is_start_minus_end _ _ 9 4
    { status := 200, body := [] } rfl

/-- C3: for every request, `GET /` returns status 200 with body
`{"message": "This endpoint has a middleware"}`, regardless of request
timing (the handler receives no timing input at all). -/
theorem C3_home_route_ok (req : Request) :
    home_route req =
      { status := 200, body := [("message", "This endpoint has a middleware")] } :=
  rfl

/-- C4: for every request through the middleware (whose downstream call
completes), exactly one `Request Received: <METHOD> <URL>` line and
exactly one `Duration: <float>` line are emitted, in that order. -/
theorem C4_log_lines (request : Request)
    (call_next : Request → Except String Response)
    (start_time end_time : ℚ) (response : Response)
    (h : call_next request = Except.ok response) :
    (logger request call_next start_time end_time).1 =
      [requestLine request, durationLine start_time end_time] := by
  simp [logger, h]

/-- C4, witness at concrete inputs. -/
theorem C4_witness :
    (logger { method := "GET", url := "http://w4/" }
        (fun _ => Except.ok { status := 200, body := [("message", "ok")] }) 7 4).1 =
      [requestLine { method := "GET", url := "http://w4/" }, durationLine 7 4] :=
  C4_log_lines _ _ 7 4 { status := 200, body := [("message", "ok")] } rfl

/-- C5: for every request and every response produced by the downstream
handler chain, the middleware returns that downstream response unmodified
to the caller. -/
theorem C5_response_unmodified (request : Request)
    (call_next : Request → Except String Response)
    (start_time end_time : ℚ) (response : Response)
    (h : call_next request = Except.ok response) :
    (logger request call_next start_time end_time).2 = Except.ok response := by
  simp [logger, h]

/-- C5, witness at concrete inputs. -/
theorem C5_witness :
    (logger { method := "POST", url := "http://w5/" }
        (fun _ => Except.ok { status := 404, body := [] }) 3 1).2 =
      Except.ok { status := 404, body := [] } :=
  C5_response_unmodified _ _ 3 1 { status := 404, body := [] } rfl

/-- C6: repeating either request any number of times yields identical
response bodies and status codes on every repetition; both handlers are
stateless, so each of the `n` invocations produces the same fixed
response. -/
theorem C6_idempotent (n : Nat) (req : Request) :
    (List.range n).map (fun _ => user_route) =
      List.replicate n
        (Except.ok { status := 200, body := [("message", "Hello Francis Peter!")] }) ∧
    (List.range n).map (fun _ => home_route req) =
      List.replicate n
        { status := 200, body := [("message", "This endpoint has a middleware")] } := by
  have hu : user_route =
      Except.ok { status := 200, body := [("message", "Hello Francis Peter!")] } := rfl
  have hh : home_route req =
      { status := 200, body := [("message", "This endpoint has a middleware")] } := rfl
  constructor
  · simp only [hu, List.map_const', List.length_range]
  · simp only [hh, List.map_const', List.length_range]

/-- C7: the `/` handler produces the same fixed response for every pair of
requests, including requests differing in URL or query string: the
response does not depend on any request content. -/
theorem C7_home_ignores_request (r₁ r₂ : Request) :
    home_route r₁ = home_route r₂ :=
  rfl

/-- C8: the provider function `get_user` takes no parameters, cannot fail,
and on every call returns the fixed record with the single key `user`
holding the display name `"Francis Peter"` (totality and purity hold by
construction of the definition). -/
theorem C8_get_user_constant :
    get_user = [("user", "Francis Peter")] ∧
    dictGet get_user "user" = some "Francis Peter" ∧
    get_user.map Prod.fst = ["user"] :=
  ⟨rfl, rfl, rfl⟩

/-- C9: if the downstream handler chain raises an exception, the
middleware has already emitted the request line but emits no duration
line, and the exception propagates unhandled to the caller. -/
theorem C9_exception_propagates (request : Request)
    (call_next : Request → Except String Response)
    (start_time end_time : ℚ) (e : String)
    (h : call_next request = Except.error e) :
    (logger request call_next start_time end_time).1 = [requestLine request] ∧
    (logger request call_next start_time end_time).2 = Except.error e := by
  simp [logger, h]

/-- C9, witness at concrete inputs. -/
theorem C9_witness :
    (logger { method := "GET", url := "http://w9/" }
        (fun _ => Except.error "boom") 3 1).1 =
      [requestLine { method := "GET", url := "http://w9/" }] ∧
    (logger { method := "GET", url := "http://w9/" }
        (fun _ => Except.error "boom") 3 1).2 = Except.error "boom" :=
  C9_exception_propagates _ _ 3 1 "boom" rfl

/-- C10: for every injected dict containing the key `user`,
`view_user_profile` returns the greeting built from that value; for any
injected dict lacking the key, the lookup raises `KeyError`; and under the
actual provider `get_user` the key is present, so the error branch is
unreachable. -/
theorem C10_view_user_profile_cases (u : List (String × String)) :
    (∀ v, dictGet u "user" = some v →
        view_user_profile u = Except.ok [("message", "Hello " ++ v ++ "!")]) ∧
    (dictGet u "user" = none →
        view_user_profile u = Except.error "KeyError: user") ∧
    dictGet get_user "user" = some "Francis Peter" := by
  refine ⟨?_, ?_, rfl⟩
  · intro v hv
    simp [view_user_profile, hv]
  · intro hv
    simp [view_user_profile, hv]

/-- C10, witness at concrete inputs. -/
theorem C10_witness :
    view_user_profile [("user", "Ada")] =
      Except.ok [("message", "Hello Ada!")] ∧
    view_user_profile [("name", "Ada")] =
      Except.error "KeyError: user" :=
  ⟨(C10_view_user_profile_cases [("user", "Ada")]).1 "Ada" rfl,
   (C10_view_user_profile_cases [("name", "Ada")]).2.1 rfl⟩
